import Mathlib

/-!
Verification development for `lsodar.py` (`odeintr`), the stepping driver that
repeatedly invokes the external LSODAR solver (`_lsodar.dlsodar`) to produce a
trajectory at requested output times, with critical-time handling, root
detection, diagnostics collection and an option-dependent result shape.

The external Fortran solver is abstracted as an oracle: a list of
`AdvanceResult` records, one per `dlsodar` call, supplying the values the call
would return (`y, treached, istate, jroot`) together with the post-call
contents of the diagnostic workspace slots.  Times are modelled as rationals
(the driver only compares them for equality and order), state vectors as an
abstract type `σ`, and the per-step diagnostic snapshot as an abstract type
`δ`.  Python exceptions are modelled by an `Except` monad; `print` statements
are modelled by an append-only log in the driver state.
-/

namespace Lsodar

/-- Python exceptions that the translated code can raise. -/
inductive PyErr where
  | valueError (msg : String)
  | nameError (msg : String)
  | typeError
  | indexError
  | keyError
deriving DecidableEq

/-- Decidable equality of `Except` results, to evaluate the model on
concrete inputs. -/
instance exceptDecEq {ε α : Type} [DecidableEq ε] [DecidableEq α] :
    DecidableEq (Except ε α) := fun x y =>
  match x, y with
  | Except.error a, Except.error b =>
    if h : a = b then isTrue (by rw [h])
    else isFalse (fun hc => by cases hc; exact h rfl)
  | Except.error _, Except.ok _ => isFalse (fun hc => by cases hc)
  | Except.ok _, Except.error _ => isFalse (fun hc => by cases hc)
  | Except.ok a, Except.ok b =>
    if h : a = b then isTrue (by rw [h])
    else isFalse (fun hc => by cases hc; exact h rfl)

/-- Evaluate a Python subscript / lookup: `none` raises the given exception. -/
def liftOpt {α : Type} (e : PyErr) : Option α → Except PyErr α
  | none => Except.error e
  | some a => Except.ok a

/-- The `_msgs` status-message table (lsodar.py lines 8-17); `none` means the
key is absent and a subscript would raise `KeyError`. -/
def msgs (istate : ℤ) : Option String :=
  if istate = 2 then some "Integration successful."
  else if istate = 3 then some "Integration successful. Root found."
  else if istate = -1 then some "Excess work done on this call (perhaps wrong Dfun type)."
  else if istate = -2 then some "Excess accuracy requested (tolerances too small)."
  else if istate = -3 then some "Illegal input detected (internal error)."
  else if istate = -4 then some "Repeated error test failures (internal error)."
  else if istate = -5 then some "Repeated convergence failures (perhaps bad Jacobian or tolerances)."
  else if istate = -6 then some "Error weight became zero during problem."
  else if istate = -7 then some "Internal workspace insufficient to finish (internal error)."
  else none

/-- The second line printed on a failure return (lsodar.py line 266). -/
def fullOutputHint : String := "Run with full_output = 1 to get quantitative information."

/-- One `_lsodar.dlsodar` return (lsodar.py lines 256-261), abstracting the
external solver: new state vector `y`, time reached, returned `istate`, root
indicator vector `jroot`, and `diag`, the post-call contents of the
`rwork`/`iwork` diagnostic slots named by `_rwork_vars`/`_iwork_vars`. -/
structure AdvanceResult (σ δ : Type) where
  y : σ
  treached : ℚ
  istate : ℤ
  jroot : List ℤ
  diag : δ
deriving DecidableEq

/-- The mutable local variables of the `odeintr` stepping loop
(lsodar.py lines 240-247 initialise them).  `info` models the aligned
per-recorded-point diagnostic sequences of `info_dict` (one snapshot per
recorded point), `message` models `info_dict` key `message`, `printed` logs
console prints, and `warnings` counts the multiple-root warning prints of
line 299. -/
structure DriverSt (σ δ : Type) where
  itask : ℤ
  tindex : ℕ
  tcrit_ii : ℕ
  tout : List ℚ
  yout : List σ
  t_root : List ℚ
  y_root : List σ
  i_root : List ℕ
  info : List δ
  message : Option String
  printed : List String
  warnings : ℕ
deriving DecidableEq

/-- Loop-invariant configuration read by the stepping loop: the requested
output times `t`, the (possibly merged) critical-time list `tcrit` (`none`
models Python `None`), `root_term`, and the `full_output` / `printmessg`
flags. -/
structure Cfg where
  t : List ℚ
  tcrit : Option (List ℚ)
  root_term : List ℤ
  full_output : Bool
  printmessg : Bool
deriving DecidableEq

/-- Python `len(tcrit)`: raises `TypeError` when `tcrit` is `None`. -/
def tcLen : Option (List ℚ) → Except PyErr ℕ
  | none => Except.error PyErr.typeError
  | some l => Except.ok l.length

/-- Python `tcrit[i]`: `TypeError` when `tcrit` is `None`, `IndexError` out of
range. -/
def tcGet : Option (List ℚ) → ℕ → Except PyErr ℚ
  | none, _ => Except.error PyErr.typeError
  | some l, i => liftOpt PyErr.indexError (l.get? i)

/-- Python `jroot.index(1)` (lsodar.py line 302): index of the first entry equal
to 1, `none` when absent (Python raises `ValueError`). -/
def idx1 : List ℤ → Option ℕ
  | [] => none
  | x :: xs => if x = 1 then some 0 else (idx1 xs).map (· + 1)

/-- Exception message of `list.index` when the element is absent. -/
def indexValueErrorMsg : String := "list.index(x): x not in list"

/-- Result of one loop iteration: continue looping, or `break` out of the
loop with the given state (lsodar.py lines 267, 309). -/
inductive StepOut (σ δ : Type) where
  | cont (st : DriverSt σ δ)
  | halt (st : DriverSt σ δ)
deriving DecidableEq

/-- The driver state carried by a `StepOut`. -/
def StepOut.st {σ δ : Type} : StepOut σ δ → DriverSt σ δ
  | .cont s => s
  | .halt s => s

/-- Whether a `StepOut` continues the loop. -/
def StepOut.isCont {σ δ : Type} : StepOut σ δ → Bool
  | .cont _ => true
  | .halt _ => false

/-- Lines 269-270: under `printmessg`, print the status message
(`_msgs[istate]`; a missing key raises `KeyError`). -/
def printPhase {σ δ : Type} (cfg : Cfg) (st : DriverSt σ δ)
    (r : AdvanceResult σ δ) : Except PyErr (DriverSt σ δ) :=
  if cfg.printmessg then
    match msgs r.istate with
    | none => Except.error PyErr.keyError
    | some m => Except.ok { st with printed := st.printed ++ [m] }
  else Except.ok st

/-- Lines 272-281: record the point when
`treached == t[tindex] or itask == 5 or istate == 3`, appending
`(treached, y)` to the trace and, under `full_output`, appending the
diagnostic snapshot and setting `info_dict` key `message` to
`_msgs[istate]`.  `tw` is `t[tindex]`, already fetched. -/
def recordPoint {σ δ : Type} (cfg : Cfg) (tw : ℚ) (st : DriverSt σ δ)
    (r : AdvanceResult σ δ) : Except PyErr (DriverSt σ δ) :=
  if r.treached = tw ∨ st.itask = 5 ∨ r.istate = 3 then
    let st1 := { st with yout := st.yout ++ [r.y], tout := st.tout ++ [r.treached] }
    if cfg.full_output then
      match msgs r.istate with
      | none => Except.error PyErr.keyError
      | some m => Except.ok { st1 with info := st1.info ++ [r.diag], message := some m }
    else Except.ok st1
  else Except.ok st

/-- Lines 283-285: advance the output-time cursor when the requested time was
reached. -/
def advanceOutputCursor {σ δ : Type} (tw : ℚ) (st : DriverSt σ δ)
    (r : AdvanceResult σ δ) : DriverSt σ δ :=
  if r.treached = tw then { st with tindex := st.tindex + 1 } else st

/-- Lines 289-293: advance the critical-time cursor, and when the queue is
exhausted (`tcrit_ii == len(tcrit)`) revert `itask` to plain stepping 1. -/
def advanceCritQueue {σ δ : Type} (cfg : Cfg) (st : DriverSt σ δ) :
    Except PyErr (DriverSt σ δ) :=
  match tcLen cfg.tcrit with
  | Except.error e => Except.error e
  | Except.ok n =>
    let st1 := { st with tcrit_ii := st.tcrit_ii + 1 }
    Except.ok (if st1.tcrit_ii = n then { st1 with itask := 1 } else st1)

/-- Lines 287-293, the branch condition: the source reads
`itask == 4 or itask == 5 and treached == tcrit[tcrit_ii]`, which by Python
operator precedence parses as
`(itask == 4) or ((itask == 5) and treached == tcrit[tcrit_ii])`:
in mode 4 the cursor advances unconditionally, while `tcrit[tcrit_ii]` is
only evaluated (possibly raising) in mode 5. -/
def advanceCritCursor {σ δ : Type} (cfg : Cfg) (st : DriverSt σ δ)
    (r : AdvanceResult σ δ) : Except PyErr (DriverSt σ δ) :=
  if st.itask = 4 then advanceCritQueue cfg st
  else if st.itask = 5 then
    match tcGet cfg.tcrit st.tcrit_ii with
    | Except.error e => Except.error e
    | Except.ok tc =>
      if r.treached = tc then advanceCritQueue cfg st else Except.ok st
  else Except.ok st

/-- Lines 295-309: the root branch.  When `istate == 3`, print a warning if
the number of set indicators differs from one, select `jroot.index(1)` (which
raises `ValueError` when no entry is 1), record the root event, and `break`
when the termination flag of the crossed root is 1 (`root_term[crossed]`
raises `IndexError` out of range). -/
def handleRoot {σ δ : Type} (cfg : Cfg) (st : DriverSt σ δ)
    (r : AdvanceResult σ δ) : Except PyErr (StepOut σ δ) :=
  if r.istate = 3 then
    let st1 := if r.jroot.count 1 ≠ 1 then { st with warnings := st.warnings + 1 } else st
    match idx1 r.jroot with
    | none => Except.error (PyErr.valueError indexValueErrorMsg)
    | some crossed =>
      let st2 := { st1 with t_root := st1.t_root ++ [r.treached],
                            y_root := st1.y_root ++ [r.y],
                            i_root := st1.i_root ++ [crossed] }
      match cfg.root_term.get? crossed with
      | none => Except.error PyErr.indexError
      | some rt =>
        if rt = 1 then Except.ok (StepOut.halt st2) else Except.ok (StepOut.cont st2)
  else Except.ok (StepOut.cont st)

/-- One iteration of the `while tindex < len(t)` loop body
(lsodar.py lines 249-309), with the `dlsodar` call replaced by the oracle
entry `r`.  A failure status prints the fixed message plus a hint and breaks
(lines 263-267); otherwise the point is possibly recorded, the two cursors
are updated, and the root branch runs. -/
def driverStep {σ δ : Type} (cfg : Cfg) (st : DriverSt σ δ)
    (r : AdvanceResult σ δ) : Except PyErr (StepOut σ δ) :=
  if r.istate < 0 then
    match msgs r.istate with
    | none => Except.error PyErr.keyError
    | some m =>
      Except.ok (StepOut.halt { st with printed := st.printed ++ [m, fullOutputHint] })
  else
    match printPhase cfg st r with
    | Except.error e => Except.error e
    | Except.ok st1 =>
      match cfg.t.get? st1.tindex with
      | none => Except.error PyErr.indexError
      | some tw =>
        match recordPoint cfg tw st1 r with
        | Except.error e => Except.error e
        | Except.ok st2 =>
          match advanceCritCursor cfg (advanceOutputCursor tw st2 r) r with
          | Except.error e => Except.error e
          | Except.ok st3 => handleRoot cfg st3 r

/-- The stepping loop (lsodar.py line 248): while the output-time cursor has
not reached the end of `t`, consume the next oracle entry and run one
iteration.  The loop is structurally recursive on the oracle; an exhausted
oracle with output times remaining corresponds to a run about which the model
makes no claim, and returns the state reached. -/
def runLoop {σ δ : Type} (cfg : Cfg) :
    List (AdvanceResult σ δ) → DriverSt σ δ → Except PyErr (DriverSt σ δ)
  | oracle, st =>
    if st.tindex < cfg.t.length then
      match oracle with
      | [] => Except.ok st
      | r :: rest =>
        match driverStep cfg st r with
        | Except.error e => Except.error e
        | Except.ok (StepOut.halt st2) => Except.ok st2
        | Except.ok (StepOut.cont st2) => runLoop cfg rest st2
    else Except.ok st

/-- A tolerance argument (`rtol` / `atol`): Python `None` or a float (on
which `len` raises `TypeError`, the scalar path of lines 168-171/176-179), or
a sequence. -/
inductive Tol where
  | scalar : Tol
  | vec : List ℚ → Tol
deriving DecidableEq

/-- Exact message of the `ValueError` raised at lines 174/182. -/
def tolLenErrorMsg : String :=
  "Vector array of tolerances must have same length as number of equations!"

/-- Lines 168-183 for one tolerance argument: returns whether the tolerance
is a sequence, raising `ValueError` when a supplied sequence has length
other than `neq`. -/
def tolSeqCheck (neq : ℕ) : Tol → Except PyErr Bool
  | Tol.scalar => Except.ok false
  | Tol.vec l =>
    if l.length ≠ neq then Except.error (PyErr.valueError tolLenErrorMsg)
    else Except.ok true

/-- The `itol` lookup table (lines 186-189). -/
def itolTable : Bool → Bool → ℤ
  | false, false => 1
  | false, true => 2
  | true, false => 3
  | true, true => 4

/-- Python truthiness of the `tcrit` argument (`None` and `[]` are falsy). -/
def truthy : Option (List ℚ) → Bool
  | none => false
  | some l => !l.isEmpty

/-- Lines 191-206: select `itask` and the effective critical-time list.
`itask` is 4 when `tcrit` is truthy, and 5 under `int_pts`; under `int_pts`
with truthy `tcrit` the source (lines 200-203) evaluates `sets.Set(tcrit)`,
but the module `sets` is never imported (lsodar.py imports only `copy`, `os`,
`scipy` and `_lsodar`), so that branch raises `NameError` at line 200; with
falsy `tcrit` it sets `tcrit = t[1:]`. -/
def taskSelect (tcrit : Option (List ℚ)) (t : List ℚ) (int_pts : Bool) :
    Except PyErr (ℤ × Option (List ℚ)) :=
  let itask : ℤ := if truthy tcrit then 4 else 1
  if int_pts then
    if truthy tcrit then Except.error (PyErr.nameError "sets is not defined")
    else Except.ok (5, some (t.drop 1))
  else Except.ok (itask, tcrit)

/-- The `odeintr` arguments that the claims depend on.  `root_func` records
whether a root function was supplied (`root_func is not None`); the initial
state vector `y0` is a list of scalars `σ` (its length is `neq`). -/
structure Request (σ : Type) where
  y0 : List σ
  t : List ℚ
  root_term : List ℤ
  root_func : Bool
  rtol : Tol
  atol : Tol
  tcrit : Option (List ℚ)
  int_pts : Bool
  full_output : Bool
  printmessg : Bool
deriving DecidableEq

/-- The values the pre-loop part of `odeintr` (lines 150-247) computes that
later parts read.  `useg_wraps_root_func` is whether line 154 wraps the
user-supplied root function (else `useg` is the identity lambda of
line 156). -/
structure SetupOut where
  neq : ℕ
  ng : ℕ
  itol : ℤ
  itask : ℤ
  tcrit : Option (List ℚ)
  useg_wraps_root_func : Bool
deriving DecidableEq

/-- Lines 150-247 before the loop: wrap the callback functions, compute
`neq`/`ng`, validate tolerances (lines 167-189), and select the stepping
task and effective critical-time list (lines 191-206).  The workspace
construction (lines 218-238) only feeds the external solver and is absorbed
into the oracle. -/
def odeintrSetup {σ : Type} (req : Request σ) : Except PyErr SetupOut :=
  let useg_wraps := decide (req.root_term.length > 0) && req.root_func
  let neq := req.y0.length
  let ng := req.root_term.length
  match tolSeqCheck neq req.rtol with
  | Except.error e => Except.error e
  | Except.ok rtol_seq =>
    match tolSeqCheck neq req.atol with
    | Except.error e => Except.error e
    | Except.ok atol_seq =>
      match taskSelect req.tcrit req.t req.int_pts with
      | Except.error e => Except.error e
      | Except.ok ts =>
        Except.ok { neq := neq, ng := ng, itol := itolTable rtol_seq atol_seq,
                    itask := ts.1, tcrit := ts.2, useg_wraps_root_func := useg_wraps }

/-- Lines 240-247: the initial loop state.  `t0` is `t[0]` (an `IndexError`
for empty `t` is raised by the caller of this function). -/
def initSt {σ δ : Type} (itask : ℤ) (t0 : ℚ) (y0 : σ) : DriverSt σ δ :=
  { itask := itask, tindex := 1, tcrit_ii := 0,
    tout := [t0], yout := [y0],
    t_root := [], y_root := [], i_root := [],
    info := [], message := none, printed := [], warnings := 0 }

/-- One component of the returned tuple (lines 311-323). -/
inductive OutComp (σ δ : Type) where
  | traj (ys : List (List σ))
  | times (ts : List ℚ)
  | rootTimes (ts : List ℚ)
  | rootStates (ys : List (List σ))
  | rootIdxs (idxs : List ℕ)
  | diags (snaps : List δ) (message : Option String)
deriving DecidableEq

/-- The tag of an output component, for stating tuple shapes. -/
inductive OutTag where
  | traj | times | rootTimes | rootStates | rootIdxs | diags
deriving DecidableEq

/-- Forget the payload of a component. -/
def OutComp.tag {σ δ : Type} : OutComp σ δ → OutTag
  | .traj _ => OutTag.traj
  | .times _ => OutTag.times
  | .rootTimes _ => OutTag.rootTimes
  | .rootStates _ => OutTag.rootStates
  | .rootIdxs _ => OutTag.rootIdxs
  | .diags _ _ => OutTag.diags

/-- The shape of a result: its component tags in order. -/
def outTags {σ δ : Type} (outs : List (OutComp σ δ)) : List OutTag :=
  outs.map OutComp.tag

/-- Lines 311-323: assemble the returned tuple from the final loop state:
always the trajectory; plus `tout` if `int_pts or ng > 0`; plus
`(t_root, y_root, i_root)` if `ng > 0`; plus `info_dict` if `full_output`.
(The source unwraps a 1-tuple to its single element; the component list
carries the same shape information.) -/
def assembleOutputs {σ δ : Type} (int_pts : Bool) (ng : ℕ) (full_output : Bool)
    (st : DriverSt (List σ) δ) : List (OutComp σ δ) :=
  [OutComp.traj st.yout]
    ++ (if int_pts || decide (ng > 0) then [OutComp.times st.tout] else [])
    ++ (if ng > 0 then
          [OutComp.rootTimes st.t_root, OutComp.rootStates st.y_root,
           OutComp.rootIdxs st.i_root]
        else [])
    ++ (if full_output then [OutComp.diags st.info st.message] else [])

/-- The `Cfg` a request induces for the stepping loop, given the effective
critical-time list chosen by the setup. -/
def reqCfg {σ : Type} (req : Request σ) (tcrit : Option (List ℚ)) : Cfg :=
  { t := req.t, tcrit := tcrit, root_term := req.root_term,
    full_output := req.full_output, printmessg := req.printmessg }

/-- The whole of `odeintr` (lines 150-323) with the external solver replaced
by the oracle: pre-loop setup, initial state (`t[0]` raises `IndexError` on
an empty time sequence), the stepping loop, and output assembly. -/
def odeintr {σ δ : Type} (req : Request σ)
    (oracle : List (AdvanceResult (List σ) δ)) :
    Except PyErr (List (OutComp σ δ)) :=
  match odeintrSetup req with
  | Except.error e => Except.error e
  | Except.ok su =>
    match req.t.get? 0 with
    | none => Except.error PyErr.indexError
    | some t0 =>
      match runLoop (reqCfg req su.tcrit) oracle (initSt su.itask t0 req.y0) with
      | Except.error e => Except.error e
      | Except.ok stF =>
        Except.ok (assembleOutputs req.int_pts su.ng req.full_output stF)

/-- The `message` entry of the diagnostics component of a result, when
present. -/
def diagMessage {σ δ : Type} : List (OutComp σ δ) → Option String
  | [] => none
  | OutComp.diags _ m :: _ => m
  | _ :: rest => diagMessage rest

/-- The documented result shapes (spec section 6): always the trajectory;
plus the time sequence when intermediate output or root finding was
requested; plus the root time/state/index lists when root finding was
requested; plus the diagnostics dictionary appended last when full output
was requested.  This definition follows the specification text, to be
compared with the shape `assembleOutputs` produces. -/
def specResultTags (intermediate roots diags : Bool) : List OutTag :=
  [OutTag.traj]
    ++ (if intermediate || roots then [OutTag.times] else [])
    ++ (if roots then [OutTag.rootTimes, OutTag.rootStates, OutTag.rootIdxs] else [])
    ++ (if diags then [OutTag.diags] else [])

/-! ### Concrete scenarios used to evaluate the code on specific inputs -/

/-- A critical-time stepping configuration (mode 4): requested output times
`[0, 1, 2]`, one critical time 10, no roots. -/
def c1Cfg : Cfg :=
  { t := [0, 1, 2], tcrit := some [10], root_term := [],
    full_output := false, printmessg := false }

/-- Loop state entering the first iteration of the `c1Cfg` run. -/
def c1St : DriverSt ℤ ℤ := initSt 4 0 5

/-- A solver return reaching the requested time 1, which differs from the
pending critical time 10. -/
def c1Adv : AdvanceResult ℤ ℤ :=
  { y := 7, treached := 1, istate := 2, jroot := [], diag := 0 }

/-- A request combining intermediate output with an explicit critical-time
list, the combination that reaches the `sets.Set(tcrit)` merge code. -/
def c2Req : Request ℤ :=
  { y0 := [1], t := [0, 1, 2], root_term := [], root_func := false,
    rtol := Tol.scalar, atol := Tol.scalar, tcrit := some [7],
    int_pts := true, full_output := false, printmessg := false }

/-- A plain request with diagnostics enabled. -/
def c3Req : Request ℤ :=
  { y0 := [1], t := [0, 1, 2], root_term := [], root_func := false,
    rtol := Tol.scalar, atol := Tol.scalar, tcrit := none,
    int_pts := false, full_output := true, printmessg := false }

/-- Oracle for `c3Req`: one successful advance to time 1, then a failure
with status -1 (excess work). -/
def c3Oracle : List (AdvanceResult (List ℤ) ℤ) :=
  [ { y := [2], treached := 1, istate := 2, jroot := [], diag := 11 },
    { y := [3], treached := 20, istate := -1, jroot := [], diag := 12 } ]

/-- The value `odeintr c3Req c3Oracle` computes. -/
def c3Outs : List (OutComp ℤ ℤ) :=
  [OutComp.traj [[1], [2]],
   OutComp.diags [11] (some "Integration successful.")]

/-- A request whose `rtol` sequence has length 1 against 2 equations. -/
def c7Req : Request ℤ :=
  { y0 := [1, 2], t := [0, 1], root_term := [], root_func := false,
    rtol := Tol.vec [1], atol := Tol.scalar, tcrit := none,
    int_pts := false, full_output := false, printmessg := false }

/-- A request supplying a root function but an empty `root_term`, with
intermediate output requested. -/
def c9Req : Request ℤ :=
  { y0 := [1], t := [0, 1], root_term := [], root_func := true,
    rtol := Tol.scalar, atol := Tol.scalar, tcrit := none,
    int_pts := true, full_output := false, printmessg := false }

/-- Oracle for `c9Req`: one successful advance reaching time 1. -/
def c9Oracle : List (AdvanceResult (List ℤ) ℤ) :=
  [ { y := [2], treached := 1, istate := 2, jroot := [], diag := 0 } ]

/-- The value `odeintr c9Req c9Oracle` computes. -/
def c9Outs : List (OutComp ℤ ℤ) :=
  [OutComp.traj [[1], [2]], OutComp.times [0, 1]]

/-- The setup `odeintrSetup c9Req` computes: zero roots, identity `useg`,
mode 5 with `tcrit = t[1:]`. -/
def c9Su : SetupOut :=
  { neq := 1, ng := 0, itol := 1, itask := 5, tcrit := some [1],
    useg_wraps_root_func := false }

/-- The final loop state of the `c9Req` run. -/
def c9StF : DriverSt (List ℤ) ℤ :=
  { itask := 1, tindex := 2, tcrit_ii := 1, tout := [0, 1], yout := [[1], [2]],
    t_root := [], y_root := [], i_root := [], info := [],
    message := none, printed := [], warnings := 0 }

/-- Configuration with a terminating first root (`root_term = [1, 0]`). -/
def w4Cfg : Cfg :=
  { t := [0, 10, 20], tcrit := none, root_term := [1, 0],
    full_output := false, printmessg := false }

/-- Loop state entering the first iteration of the `w4Cfg` run. -/
def w4St : DriverSt ℤ ℤ := initSt 1 0 5

/-- A solver return reporting a root at time 5 with indicator `[1, 0]`. -/
def w4Adv : AdvanceResult ℤ ℤ :=
  { y := 7, treached := 5, istate := 3, jroot := [1, 0], diag := 0 }

/-- The iteration outcome `driverStep w4Cfg w4St w4Adv` computes: a break
with the root event recorded. -/
def w4Out : StepOut ℤ ℤ :=
  StepOut.halt
    { itask := 1, tindex := 1, tcrit_ii := 0, tout := [0, 5], yout := [5, 7],
      t_root := [5], y_root := [7], i_root := [0], info := [],
      message := none, printed := [], warnings := 0 }

/-- Plain configuration with diagnostics enabled and no roots. -/
def w5Cfg : Cfg :=
  { t := [0, 1], tcrit := none, root_term := [],
    full_output := true, printmessg := false }

/-- Loop state entering the first iteration of the `w5Cfg` run. -/
def w5St : DriverSt ℤ ℤ := initSt 1 0 5

/-- A successful solver return reaching the requested time 1. -/
def w5Adv : AdvanceResult ℤ ℤ :=
  { y := 7, treached := 1, istate := 2, jroot := [], diag := 3 }

/-- The iteration outcome `driverStep w5Cfg w5St w5Adv` computes. -/
def w5Out : StepOut ℤ ℤ :=
  StepOut.cont
    { itask := 1, tindex := 2, tcrit_ii := 0, tout := [0, 1], yout := [5, 7],
      t_root := [], y_root := [], i_root := [], info := [3],
      message := some "Integration successful.", printed := [], warnings := 0 }

/-- Configuration with two non-terminating roots (`root_term = [0, 0]`). -/
def w6Cfg : Cfg :=
  { t := [0, 10], tcrit := none, root_term := [0, 0],
    full_output := false, printmessg := false }

/-- Loop state entering the first iteration of the `w6Cfg` run. -/
def w6St : DriverSt ℤ ℤ := initSt 1 0 5

/-- A solver return reporting a root with two indicators set
simultaneously. -/
def w6Adv : AdvanceResult ℤ ℤ :=
  { y := 7, treached := 5, istate := 3, jroot := [1, 1], diag := 0 }

/-- The iteration outcome `driverStep w6Cfg w6St w6Adv` computes: the
warning counter is bumped and the lowest set index 0 is recorded. -/
def w6Out : StepOut ℤ ℤ :=
  StepOut.cont
    { itask := 1, tindex := 1, tcrit_ii := 0, tout := [0, 5], yout := [5, 7],
      t_root := [5], y_root := [7], i_root := [0], info := [],
      message := none, printed := [], warnings := 1 }

/-- Plain configuration used for the failure-path and all-zero-indicator
scenarios. -/
def w10Cfg : Cfg :=
  { t := [0, 1], tcrit := none, root_term := [1],
    full_output := false, printmessg := false }

/-- Loop state entering the first iteration of the `w10Cfg` run. -/
def w10St : DriverSt ℤ ℤ := initSt 1 0 5

/-- A solver return claiming a root (`istate = 3`) with an all-zero
indicator vector. -/
def w10Adv : AdvanceResult ℤ ℤ :=
  { y := 7, treached := 1, istate := 3, jroot := [0], diag := 0 }

/-- A solver failure return with status -1. -/
def w3Adv : AdvanceResult ℤ ℤ :=
  { y := 7, treached := 5, istate := -1, jroot := [], diag := 0 }

/-! ### Basic lemmas about the phases of one loop iteration -/

theorem printPhase_ok {σ δ : Type} {cfg : Cfg} {st st2 : DriverSt σ δ}
    {r : AdvanceResult σ δ} (h : printPhase cfg st r = Except.ok st2) :
    ∃ pr, st2 = { st with printed := pr } := by
  unfold printPhase at h
  split at h
  · cases hm : msgs r.istate <;> rw [hm] at h
    · cases h
    · exact ⟨_, (Except.ok.inj h).symm⟩
  · exact ⟨st.printed, (Except.ok.inj h).symm⟩

/-- Complete characterization of the recording phase on a success return:
the trace (and, under `full_output`, the diagnostics) grow by exactly one
entry when the recording condition holds and are unchanged otherwise, and no
other state component changes. -/
theorem recordPoint_ok {σ δ : Type} {cfg : Cfg} {tw : ℚ} {st st2 : DriverSt σ δ}
    {r : AdvanceResult σ δ} (h : recordPoint cfg tw st r = Except.ok st2) :
    (st2.tout = if r.treached = tw ∨ st.itask = 5 ∨ r.istate = 3 then
        st.tout ++ [r.treached] else st.tout) ∧
    (st2.yout = if r.treached = tw ∨ st.itask = 5 ∨ r.istate = 3 then
        st.yout ++ [r.y] else st.yout) ∧
    (cfg.full_output = true →
      st2.info = if r.treached = tw ∨ st.itask = 5 ∨ r.istate = 3 then
        st.info ++ [r.diag] else st.info) ∧
    (cfg.full_output = false → st2.info = st.info ∧ st2.message = st.message) ∧
    st2.itask = st.itask ∧ st2.tindex = st.tindex ∧ st2.tcrit_ii = st.tcrit_ii ∧
    st2.t_root = st.t_root ∧ st2.y_root = st.y_root ∧ st2.i_root = st.i_root ∧
    st2.warnings = st.warnings ∧ st2.printed = st.printed := by
  unfold recordPoint at h
  split at h
  · rename_i hcond
    split at h
    · rename_i hfo
      cases hm : msgs r.istate <;> rw [hm] at h
      · cases h
      · cases Except.ok.inj h
        simp [hcond, hfo]
    · rename_i hfo
      cases Except.ok.inj h
      simp only [Bool.not_eq_true] at hfo
      simp [hcond, hfo]
  · rename_i hcond
    cases Except.ok.inj h
    simp [hcond]

theorem advanceOutputCursor_frame {σ δ : Type} {tw : ℚ} {st : DriverSt σ δ}
    {r : AdvanceResult σ δ} :
    (advanceOutputCursor tw st r).itask = st.itask ∧
    (advanceOutputCursor tw st r).tcrit_ii = st.tcrit_ii ∧
    (advanceOutputCursor tw st r).tout = st.tout ∧
    (advanceOutputCursor tw st r).yout = st.yout ∧
    (advanceOutputCursor tw st r).t_root = st.t_root ∧
    (advanceOutputCursor tw st r).y_root = st.y_root ∧
    (advanceOutputCursor tw st r).i_root = st.i_root ∧
    (advanceOutputCursor tw st r).info = st.info ∧
    (advanceOutputCursor tw st r).message = st.message ∧
    (advanceOutputCursor tw st r).printed = st.printed ∧
    (advanceOutputCursor tw st r).warnings = st.warnings := by
  unfold advanceOutputCursor
  split <;> simp

theorem advanceCritQueue_ok {σ δ : Type} {cfg : Cfg} {st st2 : DriverSt σ δ}
    (h : advanceCritQueue cfg st = Except.ok st2) :
    ∃ l, cfg.tcrit = some l ∧
      st2.tcrit_ii = st.tcrit_ii + 1 ∧
      (st2.itask = if st.tcrit_ii + 1 = l.length then 1 else st.itask) ∧
      st2.tindex = st.tindex ∧ st2.tout = st.tout ∧ st2.yout = st.yout ∧
      st2.t_root = st.t_root ∧ st2.y_root = st.y_root ∧ st2.i_root = st.i_root ∧
      st2.info = st.info ∧ st2.message = st.message ∧ st2.printed = st.printed ∧
      st2.warnings = st.warnings := by
  unfold advanceCritQueue tcLen at h
  cases htc : cfg.tcrit <;> rw [htc] at h
  · cases h
  · rename_i l
    refine ⟨l, rfl, ?_⟩
    cases Except.ok.inj h
    split <;> simp_all

theorem advanceCritCursor_ok_frame {σ δ : Type} {cfg : Cfg} {st st2 : DriverSt σ δ}
    {r : AdvanceResult σ δ} (h : advanceCritCursor cfg st r = Except.ok st2) :
    st2.tindex = st.tindex ∧ st2.tout = st.tout ∧ st2.yout = st.yout ∧
    st2.t_root = st.t_root ∧ st2.y_root = st.y_root ∧ st2.i_root = st.i_root ∧
    st2.info = st.info ∧ st2.message = st.message ∧ st2.printed = st.printed ∧
    st2.warnings = st.warnings := by
  unfold advanceCritCursor at h
  split at h
  · obtain ⟨l, -, -, -, hrest⟩ := advanceCritQueue_ok h
    exact hrest
  · split at h
    · split at h
      · cases h
      · split at h
        · obtain ⟨l, -, -, -, hrest⟩ := advanceCritQueue_ok h
          exact hrest
        · cases Except.ok.inj h
          simp
    · cases Except.ok.inj h
      simp

/-- In mode 4 the critical cursor phase advances unconditionally
(the precedence slip at line 288). -/
theorem advanceCritCursor_itask4 {σ δ : Type} {cfg : Cfg} {st : DriverSt σ δ}
    {r : AdvanceResult σ δ} (h4 : st.itask = 4) :
    advanceCritCursor cfg st r = advanceCritQueue cfg st := by
  unfold advanceCritCursor
  rw [if_pos h4]

/-- In mode 5 the cursor advances exactly when the reached time equals the
current critical time. -/
theorem advanceCritCursor_itask5 {σ δ : Type} {cfg : Cfg} {st : DriverSt σ δ}
    {r : AdvanceResult σ δ} {tc : ℚ} (h5 : st.itask = 5)
    (htc : tcGet cfg.tcrit st.tcrit_ii = Except.ok tc) :
    advanceCritCursor cfg st r =
      (if r.treached = tc then advanceCritQueue cfg st else Except.ok st) := by
  unfold advanceCritCursor
  rw [if_neg (by rw [h5]; decide), if_pos h5, htc]

/-- Outside the critical modes the cursor phase is the identity. -/
theorem advanceCritCursor_plain {σ δ : Type} {cfg : Cfg} {st : DriverSt σ δ}
    {r : AdvanceResult σ δ} (h4 : st.itask ≠ 4) (h5 : st.itask ≠ 5) :
    advanceCritCursor cfg st r = Except.ok st := by
  unfold advanceCritCursor
  rw [if_neg h4, if_neg h5]

theorem handleRoot_not3 {σ δ : Type} {cfg : Cfg} {st : DriverSt σ δ}
    {r : AdvanceResult σ δ} (h : r.istate ≠ 3) :
    handleRoot cfg st r = Except.ok (StepOut.cont st) := by
  unfold handleRoot
  rw [if_neg h]

/-- The root phase on a located root: warning bump when the number of set
indicators differs from one, event recorded at `jroot.index(1)`, halt exactly
when the termination flag is 1. -/
theorem handleRoot_found {σ δ : Type} {cfg : Cfg} {st : DriverSt σ δ}
    {r : AdvanceResult σ δ} {c : ℕ} {rt : ℤ} (h3 : r.istate = 3)
    (hidx : idx1 r.jroot = some c) (hrt : cfg.root_term.get? c = some rt) :
    handleRoot cfg st r =
      (let st2 : DriverSt σ δ :=
        { st with warnings := if r.jroot.count 1 ≠ 1 then st.warnings + 1 else st.warnings,
                  t_root := st.t_root ++ [r.treached],
                  y_root := st.y_root ++ [r.y],
                  i_root := st.i_root ++ [c] }
       if rt = 1 then Except.ok (StepOut.halt st2) else Except.ok (StepOut.cont st2)) := by
  unfold handleRoot
  rw [if_pos h3, hidx]
  dsimp only
  rw [hrt]
  by_cases hc : r.jroot.count 1 ≠ 1 <;> simp [hc]

theorem handleRoot_ok_frame {σ δ : Type} {cfg : Cfg} {st : DriverSt σ δ}
    {r : AdvanceResult σ δ} {out : StepOut σ δ}
    (h : handleRoot cfg st r = Except.ok out) :
    out.st.itask = st.itask ∧ out.st.tindex = st.tindex ∧
    out.st.tcrit_ii = st.tcrit_ii ∧ out.st.tout = st.tout ∧
    out.st.yout = st.yout ∧ out.st.info = st.info ∧
    out.st.message = st.message ∧ out.st.printed = st.printed := by
  unfold handleRoot at h
  split at h
  · cases hidx : idx1 r.jroot <;> rw [hidx] at h <;> dsimp only at h
    · cases h
    · rename_i c
      cases hrt : cfg.root_term.get? c <;> rw [hrt] at h <;> dsimp only at h
      · cases h
      · split at h <;> cases Except.ok.inj h <;> split <;> simp [StepOut.st]
  · cases Except.ok.inj h
    simp [StepOut.st]

/-- Inversion of a successful non-failure iteration into its phases. -/
theorem driverStep_ok_chain {σ δ : Type} {cfg : Cfg} {st : DriverSt σ δ}
    {r : AdvanceResult σ δ} {out : StepOut σ δ} (hge : ¬r.istate < 0)
    (h : driverStep cfg st r = Except.ok out) :
    ∃ st1 tw st2 st3, printPhase cfg st r = Except.ok st1 ∧
      cfg.t.get? st1.tindex = some tw ∧
      recordPoint cfg tw st1 r = Except.ok st2 ∧
      advanceCritCursor cfg (advanceOutputCursor tw st2 r) r = Except.ok st3 ∧
      handleRoot cfg st3 r = Except.ok out := by
  unfold driverStep at h
  rw [if_neg hge] at h
  cases h1 : printPhase cfg st r <;> rw [h1] at h <;> dsimp only at h
  · cases h
  · rename_i st1
    cases h2 : cfg.t.get? st1.tindex <;> rw [h2] at h <;> dsimp only at h
    · cases h
    · rename_i tw
      cases h3 : recordPoint cfg tw st1 r <;> rw [h3] at h <;> dsimp only at h
      · cases h
      · rename_i st2
        cases h4 : advanceCritCursor cfg (advanceOutputCursor tw st2 r) r <;> rw [h4] at h <;>
          dsimp only at h
        · cases h
        · exact ⟨st1, tw, st2, _, rfl, h2, h3, h4, h⟩

/-- The failure branch of one iteration (lines 263-267): the fixed message
and the full-output hint are printed and the loop breaks with the state
otherwise unchanged. -/
theorem driverStep_failure {σ δ : Type} {cfg : Cfg} {st : DriverSt σ δ}
    {r : AdvanceResult σ δ} {m : String} (hlt : r.istate < 0)
    (hm : msgs r.istate = some m) :
    driverStep cfg st r =
      Except.ok (StepOut.halt { st with printed := st.printed ++ [m, fullOutputHint] }) := by
  unfold driverStep
  rw [if_pos hlt, hm]

/-! ### Lemmas about `idx1` (`list.index(1)`) -/

theorem idx1_eq_none_of_all_zero {l : List ℤ} (h : ∀ x ∈ l, x = 0) :
    idx1 l = none := by
  induction l with
  | nil => rfl
  | cons x xs ih =>
    have hx : x = 0 := h x (List.mem_cons_self x xs)
    have : idx1 xs = none := ih fun y hy => h y (List.mem_cons_of_mem x hy)
    simp [idx1, hx, this]

theorem idx1_isSome_of_mem {l : List ℤ} (h : (1 : ℤ) ∈ l) :
    ∃ c, idx1 l = some c := by
  induction l with
  | nil => cases h
  | cons x xs ih =>
    by_cases hx : x = 1
    · exact ⟨0, by simp [idx1, hx]⟩
    · rcases List.mem_cons.mp h with h1 | h1
      · exact absurd h1.symm hx
      · obtain ⟨c, hc⟩ := ih h1
        exact ⟨c + 1, by simp [idx1, hx, hc]⟩

/-- The function `idx1` returns the lowest index holding a 1. -/
theorem idx1_lowest {l : List ℤ} {c : ℕ} (h : idx1 l = some c) :
    l.get? c = some 1 ∧ ∀ j < c, l.get? j ≠ some 1 := by
  induction l generalizing c with
  | nil => cases h
  | cons x xs ih =>
    by_cases hx : x = 1
    · simp only [idx1, if_pos hx] at h
      cases h
      exact ⟨by simp [hx], fun j hj => absurd hj (Nat.not_lt_zero j)⟩
    · simp only [idx1, if_neg hx] at h
      cases hc : idx1 xs <;> rw [hc] at h
      · cases h
      · rename_i c0
        obtain rfl : c0 + 1 = c := by simpa using h
        obtain ⟨h1, h2⟩ := ih hc
        refine ⟨by simpa using h1, ?_⟩
        intro j hj
        cases j with
        | zero => simpa using hx
        | succ j0 =>
          have : j0 < c0 := Nat.lt_of_succ_lt_succ hj
          simpa using h2 j0 this

/-! ### Lemmas about the loop -/

theorem runLoop_done {σ δ : Type} {cfg : Cfg} {st : DriverSt σ δ}
    (h : ¬st.tindex < cfg.t.length) (oracle : List (AdvanceResult σ δ)) :
    runLoop cfg oracle st = Except.ok st := by
  cases oracle <;> · rw [runLoop]; rw [if_neg h]

theorem runLoop_cons {σ δ : Type} {cfg : Cfg} {st : DriverSt σ δ}
    {r : AdvanceResult σ δ} {rest : List (AdvanceResult σ δ)}
    (h : st.tindex < cfg.t.length) :
    runLoop cfg (r :: rest) st =
      (match driverStep cfg st r with
       | Except.error e => Except.error e
       | Except.ok (StepOut.halt st2) => Except.ok st2
       | Except.ok (StepOut.cont st2) => runLoop cfg rest st2) := by
  rw [runLoop]
  rw [if_pos h]

theorem printPhase_total {σ δ : Type} (cfg : Cfg) (st : DriverSt σ δ)
    (r : AdvanceResult σ δ) {m : String} (hm : msgs r.istate = some m) :
    ∃ st1, printPhase cfg st r = Except.ok st1 := by
  unfold printPhase
  split
  · rw [hm]; exact ⟨_, rfl⟩
  · exact ⟨_, rfl⟩

theorem recordPoint_total {σ δ : Type} (cfg : Cfg) (tw : ℚ) (st : DriverSt σ δ)
    (r : AdvanceResult σ δ) {m : String} (hm : msgs r.istate = some m) :
    ∃ st2, recordPoint cfg tw st r = Except.ok st2 := by
  unfold recordPoint
  split
  · split
    · rw [hm]; exact ⟨_, rfl⟩
    · exact ⟨_, rfl⟩
  · exact ⟨_, rfl⟩

/-- A sequence tolerance of the wrong length fails the check with the fixed
`ValueError`. -/
theorem tolSeqCheck_vec_bad {neq : ℕ} {l : List ℚ} (h : l.length ≠ neq) :
    tolSeqCheck neq (Tol.vec l) = Except.error (PyErr.valueError tolLenErrorMsg) := by
  unfold tolSeqCheck
  dsimp only
  rw [if_pos h]

/-- The tolerance check fails only with the fixed `ValueError`. -/
theorem tolSeqCheck_error {neq : ℕ} {tol : Tol} {e : PyErr}
    (h : tolSeqCheck neq tol = Except.error e) :
    e = PyErr.valueError tolLenErrorMsg := by
  cases tol with
  | scalar =>
    unfold tolSeqCheck at h
    cases h
  | vec l =>
    unfold tolSeqCheck at h
    dsimp only at h
    by_cases hl : l.length ≠ neq
    · rw [if_pos hl] at h
      exact (Except.error.inj h).symm
    · rw [if_neg hl] at h
      cases h

/-- What a successful setup always computes for the fields the claims use. -/
theorem odeintrSetup_ok {σ : Type} {req : Request σ} {su : SetupOut}
    (h : odeintrSetup req = Except.ok su) :
    su.neq = req.y0.length ∧ su.ng = req.root_term.length ∧
    su.useg_wraps_root_func = (decide (req.root_term.length > 0) && req.root_func) ∧
    taskSelect req.tcrit req.t req.int_pts = Except.ok (su.itask, su.tcrit) := by
  unfold odeintrSetup at h
  dsimp only at h
  cases h1 : tolSeqCheck req.y0.length req.rtol <;> rw [h1] at h <;>
      try dsimp only at h
  · cases h
  · cases h2 : tolSeqCheck req.y0.length req.atol <;> rw [h2] at h <;>
        try dsimp only at h
    · cases h
    · cases h3 : taskSelect req.tcrit req.t req.int_pts <;> rw [h3] at h <;>
          try dsimp only at h
      · cases h
      · cases Except.ok.inj h
        exact ⟨rfl, rfl, rfl, rfl⟩

/-- The component-tag sequence a given option combination assembles. -/
theorem assembleOutputs_tags {σ δ : Type} (int_pts full_output : Bool) (ng : ℕ)
    (st : DriverSt (List σ) δ) :
    outTags (assembleOutputs int_pts ng full_output st) =
      [OutTag.traj]
        ++ (if int_pts || decide (ng > 0) then [OutTag.times] else [])
        ++ (if ng > 0 then [OutTag.rootTimes, OutTag.rootStates, OutTag.rootIdxs] else [])
        ++ (if full_output then [OutTag.diags] else []) := by
  unfold assembleOutputs outTags
  by_cases h : ng > 0 <;> cases int_pts <;> cases full_output <;>
    simp [h, OutComp.tag]

/-- A non-root iteration never touches the root-event lists, whatever its
outcome. -/
theorem driverStep_roots_of_ne3 {σ δ : Type} {cfg : Cfg} {st : DriverSt σ δ}
    {r : AdvanceResult σ δ} {out : StepOut σ δ} (hne3 : r.istate ≠ 3)
    (h : driverStep cfg st r = Except.ok out) :
    out.st.t_root = st.t_root ∧ out.st.y_root = st.y_root ∧
    out.st.i_root = st.i_root := by
  by_cases hlt : r.istate < 0
  · unfold driverStep at h
    rw [if_pos hlt] at h
    cases hm : msgs r.istate <;> rw [hm] at h <;> try dsimp only at h
    · cases h
    · cases Except.ok.inj h
      simp [StepOut.st]
  · obtain ⟨st1, tw, st2, st3, h1, h2, h3, h4, h5⟩ := driverStep_ok_chain hlt h
    rw [handleRoot_not3 hne3] at h5
    cases Except.ok.inj h5
    obtain ⟨pr, rfl⟩ := printPhase_ok h1
    obtain ⟨-, -, -, -, -, -, -, hr1, hr2, hr3, -, -⟩ := recordPoint_ok h3
    obtain ⟨-, -, -, ha1, ha2, ha3, -, -, -, -⟩ := advanceCritCursor_ok_frame h4
    have hb := @advanceOutputCursor_frame σ δ tw st2 r
    refine ⟨?_, ?_, ?_⟩ <;>
      simp only [StepOut.st, ha1, ha2, ha3, hb.2.2.2.2.1, hb.2.2.2.2.2.1,
        hb.2.2.2.2.2.2.1, hr1, hr2, hr3]

/-- If no oracle entry reports a root, a whole loop run never records a root
event. -/
theorem runLoop_no_root {σ δ : Type} {cfg : Cfg}
    {oracle : List (AdvanceResult σ δ)} {st stF : DriverSt σ δ}
    (hno3 : ∀ r ∈ oracle, r.istate ≠ 3)
    (h : runLoop cfg oracle st = Except.ok stF) :
    stF.t_root = st.t_root ∧ stF.y_root = st.y_root ∧ stF.i_root = st.i_root := by
  induction oracle generalizing st with
  | nil =>
    rw [runLoop] at h
    split at h <;> cases Except.ok.inj h <;> exact ⟨rfl, rfl, rfl⟩
  | cons r rest ih =>
    rw [runLoop] at h
    split at h
    · have hr3 : r.istate ≠ 3 := hno3 r (List.mem_cons_self r rest)
      cases hstep : driverStep cfg st r <;> rw [hstep] at h <;> try dsimp only at h
      · cases h
      · rename_i out
        cases out with
        | halt st2 =>
          cases Except.ok.inj h
          exact driverStep_roots_of_ne3 hr3 hstep
        | cont st2 =>
          have hmid := driverStep_roots_of_ne3 hr3 hstep
          have htail := ih (fun x hx => hno3 x (List.mem_cons_of_mem r hx)) h
          exact ⟨htail.1.trans hmid.1, htail.2.1.trans hmid.2.1,
                 htail.2.2.trans hmid.2.2⟩
    · cases Except.ok.inj h
      exact ⟨rfl, rfl, rfl⟩

theorem getLast?_append_single {α : Type} (l : List α) (a : α) :
    (l ++ [a]).getLast? = some a := by
  rw [List.getLast?_append_cons]
  rfl

/-! ### Claim theorems -/

/-- C1 (code bug): the claim states that in a critical-mode iteration with a
non-exhausted queue the critical-time cursor advances if and only if the
reached time equals the current critical time.  The code advances it
unconditionally in mode 4 (`itask == 4 or itask == 5 and treached == ...`
binds `and` tighter than `or`), against its own comment at line 287.  Here
the iteration enters with `itask = 4`, cursor 0, critical time 10, and the
solver reaches time 1 ≠ 10, yet the cursor advances to 1 and, the queue being
exhausted, `itask` reverts to 1 — silently dropping the critical time 10. -/
theorem c1_crit_cursor_advances_without_reaching :
    c1St.itask = 4 ∧ c1St.tcrit_ii = 0 ∧ c1Cfg.tcrit = some [10] ∧
    c1Adv.treached ≠ (10 : ℚ) ∧
    Except.map (fun o => ((StepOut.st o).tcrit_ii, (StepOut.st o).itask))
        (driverStep c1Cfg c1St c1Adv) = Except.ok (1, 1) :=
  ⟨rfl, rfl, rfl, by decide, by rfl⟩

/-- C2 (code bug): with intermediate output requested and a non-empty
critical-time list, the claim states the driver merges the requested output
times into the critical-time set (deduplicated, sorted) and runs with
`itask = 5`.  The merge code (lines 200-203) references `sets.Set`, but the
`sets` module is never imported, so every such call raises `NameError`
before any stepping happens, whatever the solver would answer. -/
theorem c2_int_pts_with_tcrit_raises_nameerror :
    c2Req.int_pts = true ∧ c2Req.tcrit = some [7] ∧
    ∀ oracle : List (AdvanceResult (List ℤ) ℤ),
      odeintr c2Req oracle = Except.error (PyErr.nameError "sets is not defined") :=
  ⟨rfl, rfl, fun _ => rfl⟩

/-- C7 (confirmed): a supplied `rtol` or `atol` sequence whose length
differs from the state dimension makes `odeintr` raise the fixed
`ValueError` before the loop runs — uniformly in the oracle, so no solver
call is ever consulted. -/
theorem c7_bad_tolerance_length {σ δ : Type} (req : Request σ)
    (h : (∃ l, req.rtol = Tol.vec l ∧ l.length ≠ req.y0.length) ∨
         (∃ l, req.atol = Tol.vec l ∧ l.length ≠ req.y0.length)) :
    ∀ oracle : List (AdvanceResult (List σ) δ),
      odeintr req oracle = Except.error (PyErr.valueError tolLenErrorMsg) := by
  intro oracle
  have hsetup : odeintrSetup req = Except.error (PyErr.valueError tolLenErrorMsg) := by
    unfold odeintrSetup
    dsimp only
    rcases h with ⟨l, hrt, hlen⟩ | ⟨l, hat, hlen⟩
    · rw [hrt, tolSeqCheck_vec_bad hlen]
    · cases h1 : tolSeqCheck req.y0.length req.rtol with
      | error e =>
        rw [tolSeqCheck_error h1]
      | ok b =>
        dsimp only
        rw [hat, tolSeqCheck_vec_bad hlen]
  unfold odeintr
  rw [hsetup]

/-- Witness for C7 at a concrete request: `rtol` of length 1 against two
equations. -/
theorem c7_bad_tolerance_length_witness :
    odeintr c7Req ([] : List (AdvanceResult (List ℤ) ℤ)) =
      Except.error (PyErr.valueError tolLenErrorMsg) :=
  c7_bad_tolerance_length c7Req (Or.inl ⟨[1], rfl, by decide⟩) []

/-- C8 (confirmed): the assembled result always has exactly the documented
component sequence: the trajectory; plus the time sequence when intermediate
output or root finding (`ng > 0`) was requested; plus the root time, root
state and root index lists when root finding was requested; plus the
diagnostics dictionary appended last when full output was requested. -/
theorem c8_result_shape {σ δ : Type} (int_pts full_output : Bool) (ng : ℕ)
    (st : DriverSt (List σ) δ) :
    outTags (assembleOutputs int_pts ng full_output st) =
      specResultTags int_pts (decide (ng > 0)) full_output := by
  rw [assembleOutputs_tags]
  unfold specResultTags
  by_cases h : ng > 0 <;> simp [h]

/-- C3 (counterexample): in a concrete run whose second solver call fails
with status -1 and with diagnostics requested, the loop stops and returns
accumulated outputs, but the fixed message of the failing status is NOT
attached to the result: the only message in the result is the previous
success message (the failure text is only printed to the console). -/
theorem c3_failure_message_not_attached :
    (∃ r, c3Oracle.get? 1 = some r ∧ r.istate = -1) ∧
    msgs (-1) = some "Excess work done on this call (perhaps wrong Dfun type)." ∧
    odeintr c3Req c3Oracle = Except.ok c3Outs ∧
    diagMessage c3Outs = some "Integration successful." ∧
    diagMessage c3Outs ≠ msgs (-1) :=
  ⟨⟨_, rfl, rfl⟩, rfl, by rfl, rfl, by decide⟩

/-- C3 (amended): when a solver call returns a negative status the loop
terminates immediately — the remaining oracle is never consulted — and the
accumulated state is returned (no exception), unchanged except that the
fixed message for the failing status and the full-output hint are printed to
the console; in particular the diagnostics message field keeps whatever the
last recorded success wrote. -/
theorem c3_failure_stops_with_partial_results {σ δ : Type} {cfg : Cfg}
    {st : DriverSt σ δ} {r : AdvanceResult σ δ} {m : String}
    (rest : List (AdvanceResult σ δ))
    (htin : st.tindex < cfg.t.length) (hneg : r.istate < 0)
    (hm : msgs r.istate = some m) :
    driverStep cfg st r =
      Except.ok (StepOut.halt { st with printed := st.printed ++ [m, fullOutputHint] }) ∧
    runLoop cfg (r :: rest) st =
      Except.ok { st with printed := st.printed ++ [m, fullOutputHint] } := by
  refine ⟨driverStep_failure hneg hm, ?_⟩
  rw [runLoop_cons htin, driverStep_failure hneg hm]

/-- Witness for the amended C3 at a concrete state and failing advance. -/
theorem c3_failure_stops_with_partial_results_witness :
    driverStep w10Cfg w10St w3Adv =
      Except.ok (StepOut.halt { w10St with printed := w10St.printed ++
        ["Excess work done on this call (perhaps wrong Dfun type).", fullOutputHint] }) ∧
    runLoop w10Cfg (w3Adv :: []) w10St =
      Except.ok { w10St with printed := w10St.printed ++
        ["Excess work done on this call (perhaps wrong Dfun type).", fullOutputHint] } :=
  c3_failure_stops_with_partial_results [] (by decide) (by decide) rfl

/-- C10 (confirmed): the root branch is partial in the indicator vector:
when the solver reports a root (`istate = 3`) but every entry of `jroot` is
zero, `jroot.index(1)` raises an uncaught `ValueError`, which propagates out
of the whole loop instead of degrading to a partial result. -/
theorem c10_all_zero_root_indicator {σ δ : Type} {cfg : Cfg}
    {st : DriverSt σ δ} {r : AdvanceResult σ δ} {tw : ℚ}
    (rest : List (AdvanceResult σ δ))
    (h3 : r.istate = 3) (hz : ∀ x ∈ r.jroot, x = 0)
    (ht : cfg.t.get? st.tindex = some tw) (hpm : cfg.printmessg = false)
    (hit : st.itask = 1) (htin : st.tindex < cfg.t.length) :
    handleRoot cfg st r = Except.error (PyErr.valueError indexValueErrorMsg) ∧
    driverStep cfg st r = Except.error (PyErr.valueError indexValueErrorMsg) ∧
    runLoop cfg (r :: rest) st = Except.error (PyErr.valueError indexValueErrorMsg) := by
  have hroot : ∀ s : DriverSt σ δ,
      handleRoot cfg s r = Except.error (PyErr.valueError indexValueErrorMsg) := by
    intro s
    unfold handleRoot
    rw [if_pos h3, idx1_eq_none_of_all_zero hz]
  have hge : ¬r.istate < 0 := by rw [h3]; decide
  have hmsg : msgs r.istate = some "Integration successful. Root found." := by
    rw [h3]; rfl
  have hpp : printPhase cfg st r = Except.ok st := by
    unfold printPhase
    rw [hpm]
    simp
  obtain ⟨st2, hrec⟩ := recordPoint_total cfg tw st r hmsg
  have hrecit : st2.itask = st.itask := (recordPoint_ok hrec).2.2.2.2.1
  have hoc := @advanceOutputCursor_frame σ δ tw st2 r
  have hcrit : advanceCritCursor cfg (advanceOutputCursor tw st2 r) r =
      Except.ok (advanceOutputCursor tw st2 r) := by
    refine advanceCritCursor_plain ?_ ?_ <;> rw [hoc.1, hrecit, hit] <;> decide
  have hstep : driverStep cfg st r =
      Except.error (PyErr.valueError indexValueErrorMsg) := by
    unfold driverStep
    rw [if_neg hge, hpp]
    dsimp only
    rw [ht]
    dsimp only
    rw [hrec]
    dsimp only
    rw [hcrit]
    dsimp only
    exact hroot _
  refine ⟨hroot st, hstep, ?_⟩
  rw [runLoop_cons htin, hstep]

/-- Witness for C10: a concrete iteration with `istate = 3` and
`jroot = [0]`. -/
theorem c10_all_zero_root_indicator_witness :
    handleRoot w10Cfg w10St w10Adv = Except.error (PyErr.valueError indexValueErrorMsg) ∧
    driverStep w10Cfg w10St w10Adv = Except.error (PyErr.valueError indexValueErrorMsg) ∧
    runLoop w10Cfg (w10Adv :: []) w10St =
      Except.error (PyErr.valueError indexValueErrorMsg) :=
  c10_all_zero_root_indicator [] rfl (by decide) rfl rfl rfl (by decide)

/-- C5 (confirmed): in a non-failing iteration that completes without an
exception, a point `(treached, y)` is appended to the output trace exactly
when the reached time equals the next requested output time, or
intermediate-output mode (`itask = 5`) is active, or the status reports a
root; and when diagnostics are requested the snapshot sequence grows by
exactly those appends, and not otherwise. -/
theorem c5_record_iff {σ δ : Type} {cfg : Cfg} {st : DriverSt σ δ}
    {r : AdvanceResult σ δ} {out : StepOut σ δ} {tw : ℚ}
    (hge : ¬r.istate < 0) (ht : cfg.t.get? st.tindex = some tw)
    (h : driverStep cfg st r = Except.ok out) :
    ((StepOut.st out).tout = if r.treached = tw ∨ st.itask = 5 ∨ r.istate = 3
        then st.tout ++ [r.treached] else st.tout) ∧
    ((StepOut.st out).yout = if r.treached = tw ∨ st.itask = 5 ∨ r.istate = 3
        then st.yout ++ [r.y] else st.yout) ∧
    (cfg.full_output = true →
      (StepOut.st out).info = if r.treached = tw ∨ st.itask = 5 ∨ r.istate = 3
        then st.info ++ [r.diag] else st.info) ∧
    (cfg.full_output = false → (StepOut.st out).info = st.info) := by
  obtain ⟨st1, tw2, st2, st3, h1, h2, h3, h4, h5⟩ := driverStep_ok_chain hge h
  obtain ⟨pr, rfl⟩ := printPhase_ok h1
  have htw : tw = tw2 := by
    have h2x : cfg.t.get? st.tindex = some tw2 := h2
    rw [ht] at h2x
    exact Option.some.inj h2x
  subst htw
  obtain ⟨rt, ry, rfT, rfF, -, -, -, -, -, -, -, -⟩ := recordPoint_ok h3
  obtain ⟨-, -, ot, oy, -, -, -, oi, -, -, -⟩ :=
    @advanceOutputCursor_frame σ δ tw st2 r
  obtain ⟨-, ct, cy, -, -, -, ci, -, -, -⟩ := advanceCritCursor_ok_frame h4
  obtain ⟨-, -, -, ht4, hy4, hi4, -, -⟩ := handleRoot_ok_frame h5
  refine ⟨?_, ?_, fun hfo => ?_, fun hfo => ?_⟩
  · rw [ht4, ct, ot, rt]
  · rw [hy4, cy, oy, ry]
  · rw [hi4, ci, oi, rfT hfo]
  · rw [hi4, ci, oi, (rfF hfo).1]

/-- Witness for C5 at a concrete recording iteration with diagnostics
enabled. -/
theorem c5_record_iff_witness :
    ((StepOut.st w5Out).tout =
      if w5Adv.treached = 1 ∨ w5St.itask = 5 ∨ w5Adv.istate = 3
        then w5St.tout ++ [w5Adv.treached] else w5St.tout) ∧
    ((StepOut.st w5Out).yout =
      if w5Adv.treached = 1 ∨ w5St.itask = 5 ∨ w5Adv.istate = 3
        then w5St.yout ++ [w5Adv.y] else w5St.yout) ∧
    (w5Cfg.full_output = true →
      (StepOut.st w5Out).info =
        if w5Adv.treached = 1 ∨ w5St.itask = 5 ∨ w5Adv.istate = 3
          then w5St.info ++ [w5Adv.diag] else w5St.info) ∧
    (w5Cfg.full_output = false → (StepOut.st w5Out).info = w5St.info) :=
  c5_record_iff (by decide) rfl rfl

/-- C6 (confirmed): when the solver reports a root and more than one entry
of the indicator vector is set, the iteration bumps the (non-fatal) warning
counter, deterministically records the lowest set index as the crossed root,
and — the termination flag of that root being unset — continues the loop. -/
theorem c6_multiple_root_indicators {σ δ : Type} {cfg : Cfg} {st : DriverSt σ δ}
    {r : AdvanceResult σ δ} {out : StepOut σ δ} {c : ℕ} {rt : ℤ}
    (h3 : r.istate = 3) (hcount : 1 < r.jroot.count 1)
    (hidx : idx1 r.jroot = some c) (hrt : cfg.root_term.get? c = some rt)
    (hterm : rt ≠ 1) (h : driverStep cfg st r = Except.ok out) :
    (StepOut.st out).warnings = st.warnings + 1 ∧
    (StepOut.st out).i_root = st.i_root ++ [c] ∧
    (StepOut.st out).t_root = st.t_root ++ [r.treached] ∧
    (StepOut.st out).y_root = st.y_root ++ [r.y] ∧
    StepOut.isCont out = true ∧
    r.jroot.get? c = some 1 ∧ (∀ j, j < c → r.jroot.get? j ≠ some 1) := by
  have hge : ¬r.istate < 0 := by rw [h3]; decide
  obtain ⟨st1, tw, st2, st3, h1, h2, hrec, h4, h5⟩ := driverStep_ok_chain hge h
  have hne : r.jroot.count 1 ≠ 1 := by omega
  rw [handleRoot_found h3 hidx hrt] at h5
  dsimp only at h5
  rw [if_pos hne, if_neg hterm] at h5
  cases Except.ok.inj h5
  obtain ⟨pr, rfl⟩ := printPhase_ok h1
  obtain ⟨-, -, -, -, -, -, -, r8, r9, r10, r11, -⟩ := recordPoint_ok hrec
  obtain ⟨-, -, -, -, o5, o6, o7, -, -, -, o11⟩ :=
    @advanceOutputCursor_frame σ δ tw st2 r
  obtain ⟨-, -, -, c4, c5, c6, -, -, -, c10⟩ := advanceCritCursor_ok_frame h4
  refine ⟨?_, ?_, ?_, ?_, rfl, (idx1_lowest hidx).1, (idx1_lowest hidx).2⟩
  · show st3.warnings + 1 = st.warnings + 1
    rw [c10, o11, r11]
  · show st3.i_root ++ [c] = st.i_root ++ [c]
    rw [c6, o7, r10]
  · show st3.t_root ++ [r.treached] = st.t_root ++ [r.treached]
    rw [c4, o5, r8]
  · show st3.y_root ++ [r.y] = st.y_root ++ [r.y]
    rw [c5, o6, r9]

/-- Witness for C6 at a concrete iteration with indicator `[1, 1]` and no
termination flags. -/
theorem c6_multiple_root_indicators_witness :
    (StepOut.st w6Out).warnings = w6St.warnings + 1 ∧
    (StepOut.st w6Out).i_root = w6St.i_root ++ [0] ∧
    (StepOut.st w6Out).t_root = w6St.t_root ++ [w6Adv.treached] ∧
    (StepOut.st w6Out).y_root = w6St.y_root ++ [w6Adv.y] ∧
    StepOut.isCont w6Out = true ∧
    w6Adv.jroot.get? 0 = some 1 ∧ (∀ j, j < 0 → w6Adv.jroot.get? j ≠ some 1) :=
  @c6_multiple_root_indicators ℤ ℤ w6Cfg w6St w6Adv w6Out 0 0
    rfl (by decide) rfl rfl (by decide) (by decide)

/-- C4 (confirmed): when the solver call reports a root whose termination
flag is 1, the iteration breaks — even though requested output times remain
— the loop returns immediately with that state whatever oracle entries
follow, and the last entries of the time trace and trajectory equal the
recorded root event time and state. -/
theorem c4_terminal_root_stops_loop {σ δ : Type} {cfg : Cfg} {st : DriverSt σ δ}
    {r : AdvanceResult σ δ} {out : StepOut σ δ} {c : ℕ}
    (rest : List (AdvanceResult σ δ))
    (htin : st.tindex < cfg.t.length) (h3 : r.istate = 3)
    (hidx : idx1 r.jroot = some c) (hrt : cfg.root_term.get? c = some 1)
    (h : driverStep cfg st r = Except.ok out) :
    StepOut.isCont out = false ∧
    runLoop cfg (r :: rest) st = Except.ok (StepOut.st out) ∧
    (StepOut.st out).tout.getLast? = some r.treached ∧
    (StepOut.st out).yout.getLast? = some r.y ∧
    (StepOut.st out).t_root.getLast? = some r.treached ∧
    (StepOut.st out).y_root.getLast? = some r.y ∧
    (StepOut.st out).i_root.getLast? = some c := by
  have hge : ¬r.istate < 0 := by rw [h3]; decide
  obtain ⟨st1, tw, st2, st3, h1, h2, hrec, h4, h5⟩ := driverStep_ok_chain hge h
  rw [handleRoot_found h3 hidx hrt] at h5
  dsimp only at h5
  rw [if_pos rfl] at h5
  obtain ⟨rt2, -, -, -, -, -, -, -, -, -, -, -⟩ := recordPoint_ok hrec
  obtain ⟨-, -, ot, oy, -, -, -, -, -, -, -⟩ :=
    @advanceOutputCursor_frame σ δ tw st2 r
  obtain ⟨-, ct, cy, -, -, -, -, -, -, -⟩ := advanceCritCursor_ok_frame h4
  obtain ⟨-, -, -, -, ry2, -, -, -, -, -, -, -⟩ := recordPoint_ok hrec
  have hcond : r.treached = tw ∨ st1.itask = 5 ∨ r.istate = 3 := Or.inr (Or.inr h3)
  have htrace : st3.tout = st1.tout ++ [r.treached] := by
    rw [ct, ot, rt2, if_pos hcond]
  have hytrace : st3.yout = st1.yout ++ [r.y] := by
    obtain ⟨-, ry, -, -, -, -, -, -, -, -, -, -⟩ := recordPoint_ok hrec
    rw [cy, oy, ry, if_pos hcond]
  cases Except.ok.inj h5
  refine ⟨rfl, ?_, ?_, ?_, ?_, ?_, ?_⟩
  · rw [runLoop_cons htin, h]
    rfl
  · show (st3.tout).getLast? = some r.treached
    rw [htrace]
    exact getLast?_append_single _ _
  · show (st3.yout).getLast? = some r.y
    rw [hytrace]
    exact getLast?_append_single _ _
  · show (st3.t_root ++ [r.treached]).getLast? = some r.treached
    exact getLast?_append_single _ _
  · show (st3.y_root ++ [r.y]).getLast? = some r.y
    exact getLast?_append_single _ _
  · show (st3.i_root ++ [c]).getLast? = some c
    exact getLast?_append_single _ _

/-- Witness for C4 at a concrete run: a terminating root at time 1/2 with
requested output times 1 and 2 still pending. -/
theorem c4_terminal_root_stops_loop_witness :
    StepOut.isCont w4Out = false ∧
    runLoop w4Cfg (w4Adv :: []) w4St = Except.ok (StepOut.st w4Out) ∧
    (StepOut.st w4Out).tout.getLast? = some w4Adv.treached ∧
    (StepOut.st w4Out).yout.getLast? = some w4Adv.y ∧
    (StepOut.st w4Out).t_root.getLast? = some w4Adv.treached ∧
    (StepOut.st w4Out).y_root.getLast? = some w4Adv.y ∧
    (StepOut.st w4Out).i_root.getLast? = some 0 :=
  c4_terminal_root_stops_loop [] (by decide) rfl rfl rfl (by decide)

/-- C9 (counterexample): with a root function supplied, an empty
`root_term`, and intermediate output requested, the result does NOT omit the
time trace: the returned tuple is `(trajectory, times)`. -/
theorem c9_time_trace_not_omitted :
    c9Req.root_func = true ∧ c9Req.root_term = [] ∧
    odeintr c9Req c9Oracle = Except.ok c9Outs ∧
    OutTag.times ∈ outTags c9Outs :=
  ⟨rfl, rfl, by rfl, by decide⟩

/-- C9 (amended): with `root_term` empty the solver is configured with zero
roots (`ng = 0`) and the root function is never wrapped into the solver
callback; under the solver contract that status 3 is then never reported, a
run records no root event; and the result omits the root time/state/index
lists always, and omits the time trace exactly when intermediate output was
not requested. -/
theorem c9_empty_root_term {σ δ : Type} (req : Request σ)
    (oracle : List (AdvanceResult (List σ) δ)) (outs : List (OutComp σ δ))
    (su : SetupOut) (t0 : ℚ) (stF : DriverSt (List σ) δ)
    (hroot : req.root_term = []) (hno3 : ∀ r ∈ oracle, r.istate ≠ 3)
    (hsu : odeintrSetup req = Except.ok su) (ht0 : req.t.get? 0 = some t0)
    (hloop : runLoop (reqCfg req su.tcrit) oracle (initSt su.itask t0 req.y0) =
      Except.ok stF)
    (hrun : odeintr req oracle = Except.ok outs) :
    su.ng = 0 ∧ su.useg_wraps_root_func = false ∧
    stF.t_root = [] ∧ stF.y_root = [] ∧ stF.i_root = [] ∧
    outs = assembleOutputs req.int_pts 0 req.full_output stF ∧
    outTags outs = [OutTag.traj]
      ++ (if req.int_pts then [OutTag.times] else [])
      ++ (if req.full_output then [OutTag.diags] else []) := by
  obtain ⟨-, hng, hwrap, -⟩ := odeintrSetup_ok hsu
  rw [hroot] at hng
  simp only [List.length_nil] at hng
  have hwrap0 : su.useg_wraps_root_func = false := by
    rw [hwrap, hroot]
    simp
  obtain ⟨hr1, hr2, hr3⟩ := runLoop_no_root hno3 hloop
  unfold odeintr at hrun
  rw [hsu] at hrun
  dsimp only at hrun
  rw [ht0] at hrun
  dsimp only at hrun
  rw [hloop] at hrun
  dsimp only at hrun
  have houts : outs = assembleOutputs req.int_pts 0 req.full_output stF := by
    rw [← hng]
    exact (Except.ok.inj hrun).symm
  refine ⟨hng, hwrap0, hr1, hr2, hr3, houts, ?_⟩
  rw [houts, assembleOutputs_tags]
  simp

/-- Witness for the amended C9 at the concrete `c9Req` request. -/
theorem c9_empty_root_term_witness :
    c9Su.ng = 0 ∧ c9Su.useg_wraps_root_func = false ∧
    c9StF.t_root = [] ∧ c9StF.y_root = [] ∧ c9StF.i_root = [] ∧
    c9Outs = assembleOutputs c9Req.int_pts 0 c9Req.full_output c9StF ∧
    outTags c9Outs = [OutTag.traj]
      ++ (if c9Req.int_pts then [OutTag.times] else [])
      ++ (if c9Req.full_output then [OutTag.diags] else []) :=
  c9_empty_root_term c9Req c9Oracle c9Outs c9Su 0 c9StF rfl (by decide)
    (by rfl) rfl (by rfl) (by rfl)

end Lsodar
